import Mathlib

/-!
Shallow embedding of `src/backend/server.js` (smart-energy-monitor backend):
an Express app with user registration/login (bcrypt-hashed passwords,
JWT session tokens), a JWT authentication middleware, and per-user
energy-reading storage in PostgreSQL.

Modelling conventions:
* Timestamps are `Nat` (seconds).  Each request is evaluated at a clock
  value `now` supplied explicitly.
* The `jsonwebtoken` library is modelled symbolically: a token is a record
  of its claims, issued-at time, expiry time and a signature, where the
  signature of an honestly signed token is the tuple of the signed data
  together with the secret (the standard symbolic model of a MAC:
  producing a valid signature requires the secret).  The wire encoding of
  tokens is kept abstract as a `decode : String → Option Token` parameter
  (`none` models a malformed token string).
* `bcryptjs` is modelled symbolically by an injective tagging function.
* PostgreSQL is modelled by in-memory lists of rows; a query that the
  database fails is modelled by an explicitly injected `DBError` fault
  (with its optional `detail` field, as used by `err.detail` in the code).
-/

namespace EnergyMonitor

/-- JWT payload signed by the server: `{ id: ..., email: ... }`
(`jwt.sign({ id, email }, ...)` in register/login). -/
structure Claims where
  id : Nat
  email : String
deriving DecidableEq

/-- Symbolic signature value: the signed data together with the secret. -/
abbrev Sig := Claims × Nat × Nat × String

/-- Symbolic MAC: the signature over claims, iat and exp under `secret`. -/
def mkSig (c : Claims) (iat expiry : Nat) (secret : String) : Sig :=
  (c, iat, expiry, secret)

/-- A decoded JWT: payload, issued-at, expiry, signature. -/
structure Token where
  claims : Claims
  iat : Nat
  expiry : Nat
  sig : Sig
deriving DecidableEq

/-- `expiresIn: '7d'`, in seconds. -/
def sevenDaysSec : Nat := 7 * 24 * 60 * 60

/-- Model of `jwt.sign(claims, secret, { expiresIn: '7d' })` at clock `now`. -/
def jwtSign (c : Claims) (secret : String) (now : Nat) : Token :=
  { claims := c, iat := now, expiry := now + sevenDaysSec,
    sig := mkSig c now (now + sevenDaysSec) secret }

/-- Model of `jwt.verify(token, secret, cb)` on an already-decoded token at
clock `now`: succeeds iff the signature validates under `secret` and the
token is not expired (`jsonwebtoken` rejects once the clock reaches `exp`). -/
def jwtVerify (t : Token) (secret : String) (now : Nat) : Option Claims :=
  if t.sig = mkSig t.claims t.iat t.expiry secret ∧ now < t.expiry then
    some t.claims
  else
    none

/-- Model of `jwt.verify` on a wire-format token string: `decode` is the
(library-internal) base64/JSON parse, `none` meaning a malformed string. -/
def jwtVerifyStr (decode : String → Option Token) (secret : String) (now : Nat)
    (s : String) : Option Claims :=
  match decode s with
  | none => none
  | some t => jwtVerify t secret now

/-- Symbolic model of `bcrypt.hash(password, 10)` (injective, salted tagging). -/
def bcryptHash (password : String) : String :=
  "$2a$10$" ++ password

/-- Symbolic model of `bcrypt.compare(password, hash)`. -/
def bcryptCompare (password hash : String) : Bool :=
  hash == bcryptHash password

/-- A row of the `users` table (see `initDB`): id, email, first_name,
last_name, password (the bcrypt hash), created_at, nullable last_login,
settings JSONB (kept as its JSON text, default `\x7b\x7d`). -/
structure UserRow where
  id : Nat
  email : String
  first_name : String
  last_name : String
  password : String
  created_at : Nat
  last_login : Option Nat
  settings : String
deriving DecidableEq

/-- A row of the `energy_readings` table: the three measurement columns are
nullable decimals (no NOT NULL constraint in the schema). -/
structure ReadingRow where
  id : Nat
  user_id : Nat
  power_w : Option Rat
  energy_wh : Option Rat
  cost : Option Rat
  timestamp : Nat
deriving DecidableEq

/-- The database: the two tables plus the SERIAL id counters. -/
structure DB where
  users : List UserRow
  readings : List ReadingRow
  nextUserId : Nat
  nextReadingId : Nat
deriving DecidableEq

/-- A database error as surfaced to a handler's `catch (err)`; `detail` models
the `err.detail` field that node-postgres sets on constraint violations. -/
structure DBError where
  detail : Option String
deriving DecidableEq

/-- JS truthiness of a possibly-absent string field (`!email` is true for
both a missing field and the empty string). -/
def isTruthy : Option String → Bool
  | none => false
  | some s => s ≠ ""

/-- JS `a || b` on an optional string (`err.detail || 'Registration failed'`). -/
def orFallback (o : Option String) (fallback : String) : String :=
  match o with
  | none => fallback
  | some s => if s = "" then fallback else s

/-- The `public.users_email_key` detail text PostgreSQL attaches to a
unique-constraint violation on `email`. -/
def duplicateDetail (email : String) : String :=
  "Key (email)=(" ++ email ++ ") already exists."

/-- `SELECT * FROM users WHERE email = $1` followed by `rows[0]`. -/
def findUserByEmail (db : DB) (email : String) : Option UserRow :=
  db.users.find? (fun u => u.email == email)

/-- Public projection of a user row: every column except `password`
(what `delete user.password` leaves, and what the profile SELECT returns). -/
structure PublicUser where
  id : Nat
  email : String
  first_name : String
  last_name : String
  created_at : Nat
  last_login : Option Nat
  settings : String
deriving DecidableEq

/-- Drop the password column from a user row. -/
def stripPassword (u : UserRow) : PublicUser :=
  { id := u.id, email := u.email, first_name := u.first_name,
    last_name := u.last_name, created_at := u.created_at,
    last_login := u.last_login, settings := u.settings }

/-- The register response's user object:
`RETURNING id, email, first_name, last_name, created_at`. -/
structure RegisteredUser where
  id : Nat
  email : String
  first_name : String
  last_name : String
  created_at : Nat
deriving DecidableEq

/-- Projection of a user row to the register response's `RETURNING` columns. -/
def returningProjection (u : UserRow) : RegisteredUser :=
  { id := u.id, email := u.email, first_name := u.first_name,
    last_name := u.last_name, created_at := u.created_at }

/-- The JSON body of a response, one constructor per response shape the
server produces. -/
inductive Body where
  /-- `\x7bsuccess: false, message\x7d` error envelope. -/
  | failure (message : String)
  /-- Register success: message, user (RETURNING columns), token. -/
  | registerOk (message : String) (user : RegisteredUser) (token : Token)
  /-- Login success: message, user with password deleted, token. -/
  | loginOk (message : String) (user : PublicUser) (token : Token)
  /-- Profile success: `rows[0]` of the password-free SELECT (possibly absent). -/
  | profileOk (user : Option PublicUser)
  /-- Reading-saved success message. -/
  | readingOk (message : String)
  /-- Readings list success. -/
  | readingsOk (readings : List ReadingRow)
deriving DecidableEq

/-- An HTTP response: status code, the `success` flag and the body.
`res.json(...)` without `res.status` is status 200. -/
structure Response where
  status : Nat
  success : Bool
  body : Body
deriving DecidableEq

/-- The `INSERT INTO users ... RETURNING ...` query: an injected fault makes
it throw; otherwise it throws a unique-constraint violation (with the
PostgreSQL detail text) when the email already exists, and inserts the row
(SERIAL id, CURRENT_TIMESTAMP created_at, default settings) when it is new. -/
def insertUser (db : DB) (email firstName lastName hashed : String) (now : Nat)
    (fault : Option DBError) : Except DBError (UserRow × DB) :=
  match fault with
  | some e => .error e
  | none =>
    if db.users.any (fun u => u.email == email) then
      .error { detail := some (duplicateDetail email) }
    else
      let row : UserRow :=
        { id := db.nextUserId, email := email, first_name := firstName,
          last_name := lastName, password := hashed, created_at := now,
          last_login := none, settings := "\x7b\x7d" }
      .ok (row, { db with users := db.users ++ [row],
                          nextUserId := db.nextUserId + 1 })

/-- Request body of `POST /api/register` (fields possibly absent). -/
structure RegisterBody where
  email : Option String
  firstName : Option String
  lastName : Option String
  password : Option String
deriving DecidableEq

/-- Handler of `POST /api/register`: validate presence of all four fields,
hash the password, insert, sign a 7-day token over `\x7b id, email \x7d`;
any thrown error is caught and becomes a 400 with
`err.detail || 'Registration failed'`. -/
def register (db : DB) (body : RegisterBody) (secret : String) (now : Nat)
    (fault : Option DBError) : Response × DB :=
  if ¬ (isTruthy body.email ∧ isTruthy body.firstName ∧
        isTruthy body.lastName ∧ isTruthy body.password) then
    ({ status := 400, success := false, body := .failure "All fields are required" }, db)
  else
    let email := body.email.getD ""
    let hashed := bcryptHash (body.password.getD "")
    match insertUser db email (body.firstName.getD "") (body.lastName.getD "")
        hashed now fault with
    | .error e =>
      ({ status := 400, success := false,
         body := .failure (orFallback e.detail "Registration failed") }, db)
    | .ok (row, db') =>
      let token := jwtSign { id := row.id, email := email } secret now
      ({ status := 200, success := true,
         body := .registerOk "Registration successful" (returningProjection row) token },
       db')

/-- Fault injection points of the login handler: the SELECT and the
last-login UPDATE. -/
structure LoginFaults where
  selectFault : Option DBError
  updateFault : Option DBError
deriving DecidableEq

/-- Handler of `POST /api/login`: look the user up by email, compare the
password hash, update `last_login`, sign a token, delete the password from
the fetched row and respond; unknown email and wrong password both yield
401 `Invalid credentials`; any thrown error is caught as 500 `Login failed`. -/
def login (db : DB) (email password : String) (secret : String) (now : Nat)
    (faults : LoginFaults) : Response × DB :=
  match faults.selectFault with
  | some _ => ({ status := 500, success := false, body := .failure "Login failed" }, db)
  | none =>
    match findUserByEmail db email with
    | none =>
      ({ status := 401, success := false, body := .failure "Invalid credentials" }, db)
    | some user =>
      if ¬ bcryptCompare password user.password then
        ({ status := 401, success := false, body := .failure "Invalid credentials" }, db)
      else
        match faults.updateFault with
        | some _ =>
          ({ status := 500, success := false, body := .failure "Login failed" }, db)
        | none =>
          let db' : DB :=
            { db with users := db.users.map (fun u =>
                if u.id == user.id then { u with last_login := some now } else u) }
          let token := jwtSign { id := user.id, email := user.email } secret now
          ({ status := 200, success := true,
             body := .loginOk "Login successful" (stripPassword user) token }, db')

/-- Accumulating worker for `jsSplitSpace`: split a character list at every
space, keeping empty pieces (the semantics of JS `String.split(' ')`). -/
def splitSpaceAux : List Char → List Char → List String
  | [], acc => [String.mk acc.reverse]
  | ch :: cs, acc =>
    if ch = ' ' then String.mk acc.reverse :: splitSpaceAux cs []
    else splitSpaceAux cs (ch :: acc)

/-- JS `s.split(' ')`: split on every single space, empty pieces kept. -/
def jsSplitSpace (s : String) : List String :=
  splitSpaceAux s.data []

/-- `authHeader && authHeader.split(' ')[1]`: extract the token from the
`Authorization` header (split on single spaces, take the second word);
a falsy header yields a falsy token. -/
def extractToken (authHeader : Option String) : Option String :=
  match authHeader with
  | none => none
  | some h => if h = "" then none else (jsSplitSpace h)[1]?

/-- Outcome of the authentication middleware: either an early response
(the handler is never invoked) or the decoded claims attached as `req.user`. -/
inductive AuthResult where
  | reject (resp : Response)
  | accept (claims : Claims)
deriving DecidableEq

/-- The `authenticateToken` middleware: 401 when no truthy token can be
extracted, 403 when `jwt.verify` fails, otherwise the decoded claims. -/
def authenticateToken (decode : String → Option Token) (secret : String)
    (now : Nat) (authHeader : Option String) : AuthResult :=
  let token := extractToken authHeader
  if ¬ isTruthy token then
    .reject { status := 401, success := false, body := .failure "Access token required" }
  else
    match jwtVerifyStr decode secret now (token.getD "") with
    | none =>
      .reject { status := 403, success := false, body := .failure "Invalid or expired token" }
    | some claims => .accept claims

/-- A protected route: the middleware runs first; only when it accepts does
the route handler run, with the decoded claims as `req.user`. -/
def runProtected (decode : String → Option Token) (secret : String) (now : Nat)
    (authHeader : Option String) (handler : Claims → DB → Response × DB)
    (db : DB) : Response × DB :=
  match authenticateToken decode secret now authHeader with
  | .reject resp => (resp, db)
  | .accept claims => handler claims db

/-- Handler body of `GET /api/profile` (after the middleware): SELECT the
password-free columns of the authenticated user's row; a thrown error is
caught as 500. -/
def profileHandler (fault : Option DBError) (claims : Claims) (db : DB) :
    Response × DB :=
  match fault with
  | some _ =>
    ({ status := 500, success := false, body := .failure "Failed to fetch profile" }, db)
  | none =>
    let row := (db.users.find? (fun u => u.id == claims.id)).map stripPassword
    ({ status := 200, success := true, body := .profileOk row }, db)

/-- Request body of `POST /api/readings` (fields possibly absent; an absent
field is inserted as NULL). -/
structure ReadingBody where
  power : Option Rat
  energy : Option Rat
  cost : Option Rat
deriving DecidableEq

/-- Handler body of `POST /api/readings` (after the middleware): insert one
row with the authenticated user's id and a server-assigned timestamp, with
no validation of the body fields; the `user_id REFERENCES users(id)`
foreign key makes the INSERT throw when the user row does not exist; any
thrown error is caught as 500. -/
def postReadingHandler (body : ReadingBody) (fault : Option DBError) (now : Nat)
    (claims : Claims) (db : DB) : Response × DB :=
  match fault with
  | some _ =>
    ({ status := 500, success := false, body := .failure "Failed to save reading" }, db)
  | none =>
    if db.users.any (fun u => u.id == claims.id) then
      let row : ReadingRow :=
        { id := db.nextReadingId, user_id := claims.id, power_w := body.power,
          energy_wh := body.energy, cost := body.cost, timestamp := now }
      ({ status := 200, success := true, body := .readingOk "Reading saved" },
       { db with readings := db.readings ++ [row],
                 nextReadingId := db.nextReadingId + 1 })
    else
      ({ status := 500, success := false, body := .failure "Failed to save reading" }, db)

/-- Descending-timestamp comparison used to model `ORDER BY timestamp DESC`. -/
def byTimestampDesc (a b : ReadingRow) : Bool :=
  b.timestamp ≤ a.timestamp

/-- Handler body of `GET /api/readings` (after the middleware):
`SELECT * FROM energy_readings WHERE user_id = $1 ORDER BY timestamp DESC
LIMIT 100`; any thrown error is caught as 500. -/
def listReadingsHandler (fault : Option DBError) (claims : Claims) (db : DB) :
    Response × DB :=
  match fault with
  | some _ =>
    ({ status := 500, success := false, body := .failure "Failed to fetch readings" }, db)
  | none =>
    let rows :=
      (((db.readings.filter (fun r => r.user_id == claims.id)).mergeSort
          byTimestampDesc).take 100)
    ({ status := 200, success := true, body := .readingsOk rows }, db)

/-- The full `GET /api/profile` route (middleware then handler). -/
def getProfileRoute (decode : String → Option Token) (secret : String)
    (now : Nat) (authHeader : Option String) (fault : Option DBError)
    (db : DB) : Response × DB :=
  runProtected decode secret now authHeader (profileHandler fault) db

/-- The full `POST /api/readings` route (middleware then handler). -/
def postReadingRoute (decode : String → Option Token) (secret : String)
    (now : Nat) (authHeader : Option String) (body : ReadingBody)
    (fault : Option DBError) (db : DB) : Response × DB :=
  runProtected decode secret now authHeader (postReadingHandler body fault now) db

/-- The full `GET /api/readings` route (middleware then handler). -/
def getReadingsRoute (decode : String → Option Token) (secret : String)
    (now : Nat) (authHeader : Option String) (fault : Option DBError)
    (db : DB) : Response × DB :=
  runProtected decode secret now authHeader (listReadingsHandler fault) db

/-! Concrete fixtures used to instantiate the theorems below. -/

/-- The empty database right after `initDB`. -/
def emptyDB : DB :=
  { users := [], readings := [], nextUserId := 1, nextReadingId := 1 }

/-- Sample claims payload. -/
def sampleClaims : Claims := { id := 1, email := "a@b.com" }

/-- A token honestly signed with secret `"secret"` at time 100. -/
def sampleToken : Token := jwtSign sampleClaims "secret" 100

/-- The same token with its signature re-made under a different key,
modelling a tampered token. -/
def tamperedToken : Token :=
  { sampleToken with sig := mkSig sampleClaims 100 (100 + sevenDaysSec) "attacker" }

/-- A concrete wire decoding: the string `"tok"` decodes to `sampleToken`,
`"bad"` decodes to the tampered token, everything else is malformed. -/
def sampleDecode : String → Option Token :=
  fun s => if s = "tok" then some sampleToken
           else if s = "bad" then some tamperedToken
           else none

/-- A representative route handler (used to instantiate handler-quantified
statements). -/
def nullHandler : Claims → DB → Response × DB :=
  fun _ db => ({ status := 200, success := true, body := .readingOk "Reading saved" }, db)

/-- The register request of the spec's worked example. -/
def sampleRegisterBody : RegisterBody :=
  { email := some "a@b.com", firstName := some "A", lastName := some "B",
    password := some "pw123456" }

/-- The stored row that registration of `sampleRegisterBody` produces. -/
def sampleUser : UserRow :=
  { id := 1, email := "a@b.com", first_name := "A", last_name := "B",
    password := bcryptHash "pw123456", created_at := 10, last_login := none,
    settings := "\x7b\x7d" }

/-- A one-user database. -/
def sampleDB : DB :=
  { users := [sampleUser], readings := [], nextUserId := 2, nextReadingId := 1 }

/-- A one-user database with two readings at timestamps 40 and 50. -/
def sampleDBWithReadings : DB :=
  { sampleDB with
      readings :=
        [ { id := 1, user_id := 1, power_w := some 100, energy_wh := some 2,
            cost := none, timestamp := 40 },
          { id := 2, user_id := 1, power_w := some 1, energy_wh := none,
            cost := none, timestamp := 50 } ],
      nextReadingId := 3 }

/-! Helper lemmas. -/

/-- An honestly signed, unexpired token verifies to its own claims. -/
theorem jwtVerify_jwtSign (c : Claims) (secret : String) (iat now : Nat)
    (h : now < iat + sevenDaysSec) :
    jwtVerify (jwtSign c secret iat) secret now = some c := by
  simp [jwtVerify, jwtSign, mkSig, h]

/-- Evaluation of `register` on a valid body with a fresh email and no fault:
the row is inserted and a fresh 7-day token is signed. -/
theorem register_fresh_eq (db : DB) (body : RegisterBody) (secret : String)
    (now : Nat)
    (hval : isTruthy body.email ∧ isTruthy body.firstName ∧
            isTruthy body.lastName ∧ isTruthy body.password)
    (hany : db.users.any (fun u => u.email == body.email.getD "") = false) :
    register db body secret now none =
      ({ status := 200, success := true,
         body := .registerOk "Registration successful"
           { id := db.nextUserId, email := body.email.getD "",
             first_name := body.firstName.getD "",
             last_name := body.lastName.getD "", created_at := now }
           (jwtSign { id := db.nextUserId, email := body.email.getD "" }
             secret now) },
       { users := db.users ++
           [{ id := db.nextUserId, email := body.email.getD "",
              first_name := body.firstName.getD "",
              last_name := body.lastName.getD "",
              password := bcryptHash (body.password.getD ""),
              created_at := now, last_login := none, settings := "\x7b\x7d" }],
         readings := db.readings, nextUserId := db.nextUserId + 1,
         nextReadingId := db.nextReadingId }) := by
  unfold register
  rw [if_neg (not_not_intro hval)]
  simp only [insertUser, hany, Bool.false_eq_true, if_false]
  rfl

/-- Evaluation of `register` when some field is missing or empty. -/
theorem register_invalid_eq (db : DB) (body : RegisterBody) (secret : String)
    (now : Nat) (fault : Option DBError)
    (hval : ¬ (isTruthy body.email ∧ isTruthy body.firstName ∧
               isTruthy body.lastName ∧ isTruthy body.password)) :
    register db body secret now fault =
      ({ status := 400, success := false,
         body := .failure "All fields are required" }, db) := by
  unfold register
  rw [if_pos hval]

/-- Evaluation of `register` on a valid body when the INSERT throws an
injected database error. -/
theorem register_fault_eq (db : DB) (body : RegisterBody) (secret : String)
    (now : Nat) (e : DBError)
    (hval : isTruthy body.email ∧ isTruthy body.firstName ∧
            isTruthy body.lastName ∧ isTruthy body.password) :
    register db body secret now (some e) =
      ({ status := 400, success := false,
         body := .failure (orFallback e.detail "Registration failed") }, db) := by
  unfold register
  rw [if_neg (not_not_intro hval)]
  rfl

/-- Evaluation of `register` on a valid body whose email already exists:
the unique constraint fires and the catch answers 400 with the
constraint's detail text. -/
theorem register_dup_eq (db : DB) (body : RegisterBody) (secret : String)
    (now : Nat)
    (hval : isTruthy body.email ∧ isTruthy body.firstName ∧
            isTruthy body.lastName ∧ isTruthy body.password)
    (hdup : db.users.any (fun u => u.email == body.email.getD "") = true) :
    register db body secret now none =
      ({ status := 400, success := false,
         body := .failure (duplicateDetail (body.email.getD "")) }, db) := by
  unfold register
  rw [if_neg (not_not_intro hval)]
  simp only [insertUser, hdup, if_true]
  rfl

/-- Evaluation of `login` when the SELECT finds no row for the email. -/
theorem login_unknown_email (db : DB) (email password secret : String)
    (now : Nat) (f : LoginFaults) (hsel : f.selectFault = none)
    (hfind : findUserByEmail db email = none) :
    login db email password secret now f =
      ({ status := 401, success := false,
         body := .failure "Invalid credentials" }, db) := by
  obtain ⟨sf, uf⟩ := f
  cases hsel
  simp [login, hfind]

/-- Evaluation of `login` when the email is known but the password hash
comparison fails. -/
theorem login_wrong_password (db : DB) (email password secret : String)
    (now : Nat) (f : LoginFaults) (u : UserRow) (hsel : f.selectFault = none)
    (hfind : findUserByEmail db email = some u)
    (hpw : bcryptCompare password u.password = false) :
    login db email password secret now f =
      ({ status := 401, success := false,
         body := .failure "Invalid credentials" }, db) := by
  obtain ⟨sf, uf⟩ := f
  cases hsel
  simp [login, hfind, hpw]

/-- Evaluation of `login` on correct credentials with no fault: last_login
is updated, a fresh token signed, and the fetched row minus its password
returned. -/
theorem login_success_eq (db : DB) (email password secret : String)
    (now : Nat) (u : UserRow)
    (hfind : findUserByEmail db email = some u)
    (hpw : bcryptCompare password u.password = true) :
    login db email password secret now
      { selectFault := none, updateFault := none } =
      ({ status := 200, success := true,
         body := .loginOk "Login successful" (stripPassword u)
           (jwtSign { id := u.id, email := u.email } secret now) },
       { db with users := db.users.map (fun w =>
           if w.id == u.id then { w with last_login := some now } else w) }) := by
  simp [login, hfind, hpw]

/-- Evaluation of `login` on correct credentials when the last-login UPDATE
throws: the catch-all answers 500. -/
theorem login_update_fault_eq (db : DB) (email password secret : String)
    (now : Nat) (u : UserRow) (e : DBError)
    (hfind : findUserByEmail db email = some u)
    (hpw : bcryptCompare password u.password = true) :
    login db email password secret now
      { selectFault := none, updateFault := some e } =
      ({ status := 500, success := false, body := .failure "Login failed" }, db) := by
  simp [login, hfind, hpw]

/-- The last-login UPDATE only rewrites the `last_login` column, so the
count of rows with a given email is unchanged. -/
theorem countP_email_map_update (l : List UserRow) (uid now : Nat) (e : String) :
    (l.map (fun w =>
        if w.id == uid then { w with last_login := some now } else w)).countP
      (fun u => u.email == e) = l.countP (fun u => u.email == e) := by
  rw [List.countP_map]
  apply List.countP_congr
  intro w _
  by_cases h : w.id == uid <;> simp [h, Function.comp]

/-- Evaluation of `postReadingHandler` for an existing user with no fault:
the row is appended with a server-assigned timestamp. -/
theorem postReading_ok_eq (body : ReadingBody) (now : Nat) (claims : Claims)
    (db : DB) (huser : db.users.any (fun u => u.id == claims.id) = true) :
    postReadingHandler body none now claims db =
      ({ status := 200, success := true, body := .readingOk "Reading saved" },
       { db with
           readings := db.readings ++
             [{ id := db.nextReadingId, user_id := claims.id,
                power_w := body.power, energy_wh := body.energy,
                cost := body.cost, timestamp := now }],
           nextReadingId := db.nextReadingId + 1 }) := by
  simp only [postReadingHandler, huser, if_true]

/-- `LIMIT 100` does not change the first returned row. -/
theorem take100_head (l : List ReadingRow) : (l.take 100).head? = l.head? := by
  cases l <;> rfl

/-- The head of `mergeSort byTimestampDesc` is the strictly most recent
element, when there is one. -/
theorem mergeSort_head_max (l : List ReadingRow) (x : ReadingRow)
    (hx : x ∈ l) (hmax : ∀ y ∈ l, y ≠ x → y.timestamp < x.timestamp) :
    (l.mergeSort byTimestampDesc).head? = some x := by
  have htrans : ∀ (a b c : ReadingRow),
      byTimestampDesc a b → byTimestampDesc b c → byTimestampDesc a c := by
    intro a b c hab hbc
    simp only [byTimestampDesc, decide_eq_true_eq] at *
    omega
  have htotal : ∀ (a b : ReadingRow),
      (byTimestampDesc a b || byTimestampDesc b a) = true := by
    intro a b
    simp only [byTimestampDesc, Bool.or_eq_true, decide_eq_true_eq]
    omega
  have hperm := List.mergeSort_perm l byTimestampDesc
  have hsorted := List.sorted_mergeSort htrans htotal l
  have hxm : x ∈ l.mergeSort byTimestampDesc := (List.Perm.mem_iff hperm).2 hx
  cases hms : l.mergeSort byTimestampDesc with
  | nil => rw [hms] at hxm; cases hxm
  | cons h t =>
    rw [hms] at hxm hsorted
    by_cases hhx : h = x
    · simp [hhx]
    · exfalso
      have hhl : h ∈ l :=
        (List.Perm.mem_iff hperm).1 (hms ▸ List.mem_cons_self h t)
      have hlt : h.timestamp < x.timestamp := hmax h hhl hhx
      have hxt : x ∈ t := by
        rcases List.mem_cons.1 hxm with h1 | h1
        · exact absurd h1.symm hhx
        · exact h1
      have hge := (List.pairwise_cons.1 hsorted).1 x hxt
      simp only [byTimestampDesc, decide_eq_true_eq] at hge
      omega

/-- The middleware rejects only with status 401 or 403. -/
theorem authenticateToken_reject_status (decode : String → Option Token)
    (secret : String) (now : Nat) (authHeader : Option String) (r : Response)
    (h : authenticateToken decode secret now authHeader = .reject r) :
    r.status = 401 ∨ r.status = 403 := by
  simp only [authenticateToken] at h
  by_cases htr : isTruthy (extractToken authHeader)
  · rw [if_neg (by simpa using htr)] at h
    cases hv : jwtVerifyStr decode secret now ((extractToken authHeader).getD "") with
    | none =>
      rw [hv] at h
      injection h with h1
      right
      rw [← h1]
    | some c =>
      rw [hv] at h
      exact absurd h (by simp)
  · rw [if_pos (by simpa using htr)] at h
    injection h with h1
    left
    rw [← h1]

/-! Claim theorems. -/

/-- C1: for every protected-route request, if no truthy bearer token can be
extracted from the Authorization header, the response is a 401 `Access token
required` and the handler never runs (for every handler, the state is
returned unchanged with the fixed 401 response); if a token is extracted but
verification fails, the response is a 403 `Invalid or expired token` and the
handler never runs; otherwise the decoded claims are attached and the
handler runs on them. -/
theorem c1_authorization_gate :
    (∀ (decode : String → Option Token) (secret : String) (now : Nat)
       (authHeader : Option String) (handler : Claims → DB → Response × DB)
       (db : DB),
       isTruthy (extractToken authHeader) = false →
       runProtected decode secret now authHeader handler db =
         ({ status := 401, success := false,
            body := .failure "Access token required" }, db))
    ∧ (∀ (decode : String → Option Token) (secret : String) (now : Nat)
         (authHeader : Option String) (handler : Claims → DB → Response × DB)
         (db : DB) (s : String),
         extractToken authHeader = some s → s ≠ "" →
         jwtVerifyStr decode secret now s = none →
         runProtected decode secret now authHeader handler db =
           ({ status := 403, success := false,
              body := .failure "Invalid or expired token" }, db))
    ∧ (∀ (decode : String → Option Token) (secret : String) (now : Nat)
         (authHeader : Option String) (handler : Claims → DB → Response × DB)
         (db : DB) (s : String) (c : Claims),
         extractToken authHeader = some s → s ≠ "" →
         jwtVerifyStr decode secret now s = some c →
         runProtected decode secret now authHeader handler db = handler c db) := by
  refine ⟨?_, ?_, ?_⟩
  · intro decode secret now authHeader handler db h
    simp [runProtected, authenticateToken, h]
  · intro decode secret now authHeader handler db s hs hne hv
    simp [runProtected, authenticateToken, hs, isTruthy, hne, hv]
  · intro decode secret now authHeader handler db s c hs hne hv
    simp [runProtected, authenticateToken, hs, isTruthy, hne, hv]

/-- C1 witness: at concrete inputs, a request with no Authorization header is
rejected 401, a tampered token is rejected 403, and a valid token reaches
the handler with the decoded claims. -/
theorem c1_authorization_gate_witness :
    runProtected sampleDecode "secret" 100 none nullHandler emptyDB =
      ({ status := 401, success := false,
         body := .failure "Access token required" }, emptyDB)
    ∧ runProtected sampleDecode "secret" 100 (some "Bearer bad") nullHandler emptyDB =
      ({ status := 403, success := false,
         body := .failure "Invalid or expired token" }, emptyDB)
    ∧ runProtected sampleDecode "secret" 100 (some "Bearer tok") nullHandler emptyDB =
      nullHandler sampleClaims emptyDB :=
  ⟨c1_authorization_gate.1 sampleDecode "secret" 100 none nullHandler emptyDB
      (by decide),
   c1_authorization_gate.2.1 sampleDecode "secret" 100 (some "Bearer bad")
      nullHandler emptyDB "bad" (by decide) (by decide) (by decide),
   c1_authorization_gate.2.2 sampleDecode "secret" 100 (some "Bearer tok")
      nullHandler emptyDB "tok" sampleClaims (by decide) (by decide) (by decide)⟩

/-- C2: a token signed with `expiresIn: '7d'` fails verification once more
than 7 days have elapsed since issuance; a token whose signature does not
validate under the secret fails verification; a successful verification of a
wire token implies its signature validates; a protected request carrying a
token that fails verification is answered 403 with the state unchanged; and
whenever the middleware attaches claims, they come from a token whose
signature validates under the secret and whose expiry has not passed. -/
theorem c2_expiry_and_signature :
    (∀ (c : Claims) (secret : String) (iat now : Nat),
       iat + sevenDaysSec < now →
       jwtVerify (jwtSign c secret iat) secret now = none)
    ∧ (∀ (t : Token) (secret : String) (now : Nat),
         t.sig ≠ mkSig t.claims t.iat t.expiry secret →
         jwtVerify t secret now = none)
    ∧ (∀ (decode : String → Option Token) (secret : String) (now : Nat)
         (s : String) (c : Claims),
         jwtVerifyStr decode secret now s = some c →
         ∃ t, decode s = some t ∧ t.sig = mkSig t.claims t.iat t.expiry secret
              ∧ c = t.claims)
    ∧ (∀ (decode : String → Option Token) (secret : String) (now : Nat)
         (authHeader : Option String) (handler : Claims → DB → Response × DB)
         (db : DB) (s : String) (t : Token),
         extractToken authHeader = some s → s ≠ "" → decode s = some t →
         jwtVerify t secret now = none →
         runProtected decode secret now authHeader handler db =
           ({ status := 403, success := false,
              body := .failure "Invalid or expired token" }, db))
    ∧ (∀ (decode : String → Option Token) (secret : String) (now : Nat)
         (authHeader : Option String) (c : Claims),
         authenticateToken decode secret now authHeader = .accept c →
         ∃ s t, extractToken authHeader = some s ∧ decode s = some t
                ∧ t.sig = mkSig t.claims t.iat t.expiry secret
                ∧ now < t.expiry ∧ c = t.claims) := by
  refine ⟨?_, ?_, ?_, ?_, ?_⟩
  · intro c secret iat now h
    have : ¬ now < iat + sevenDaysSec := by omega
    simp [jwtVerify, jwtSign, mkSig, this]
  · intro t secret now h
    simp [jwtVerify, h]
  · intro decode secret now s c hv
    unfold jwtVerifyStr at hv
    cases hd : decode s with
    | none => rw [hd] at hv; exact absurd hv (by simp)
    | some t =>
      rw [hd] at hv
      unfold jwtVerify at hv
      by_cases hc : t.sig = mkSig t.claims t.iat t.expiry secret ∧ now < t.expiry
      · exact ⟨t, rfl, hc.1, by simpa [hc] using hv.symm⟩
      · simp [hc] at hv
  · intro decode secret now authHeader handler db s t hs hne hd hv
    simp [runProtected, authenticateToken, hs, isTruthy, hne, jwtVerifyStr, hd, hv]
  · intro decode secret now authHeader c hacc
    unfold authenticateToken at hacc
    cases he : extractToken authHeader with
    | none => rw [he] at hacc; simp [isTruthy] at hacc
    | some s =>
      rw [he] at hacc
      by_cases hne : s = ""
      · subst hne; simp [isTruthy] at hacc
      · rw [if_neg (by simp [isTruthy, hne])] at hacc
        have hgd : (some s).getD "" = s := rfl
        rw [hgd] at hacc
        cases hv : jwtVerifyStr decode secret now s with
        | none => rw [hv] at hacc; simp at hacc
        | some c2 =>
          rw [hv] at hacc
          have hc2 : c2 = c := by simpa using hacc
          unfold jwtVerifyStr at hv
          cases hd : decode s with
          | none => rw [hd] at hv; simp at hv
          | some t =>
            rw [hd] at hv
            have hv2 : jwtVerify t secret now = some c2 := hv
            unfold jwtVerify at hv2
            by_cases hcnd : t.sig = mkSig t.claims t.iat t.expiry secret
                ∧ now < t.expiry
            · rw [if_pos hcnd] at hv2
              have ht : t.claims = c2 := by simpa using hv2
              exact ⟨s, t, rfl, hd, hcnd.1, hcnd.2, by rw [← hc2, ← ht]⟩
            · rw [if_neg hcnd] at hv2; simp at hv2

/-- C2 witness: concretely, the sample token is rejected 8 days after
issuance, the tampered token fails verification and is answered 403, and an
accepted request's claims come from a signature-valid token. -/
theorem c2_expiry_and_signature_witness :
    jwtVerify (jwtSign sampleClaims "secret" 100) "secret"
      (100 + sevenDaysSec + 86400) = none
    ∧ jwtVerify tamperedToken "secret" 100 = none
    ∧ (∃ t, sampleDecode "tok" = some t
            ∧ t.sig = mkSig t.claims t.iat t.expiry "secret" ∧ sampleClaims = t.claims)
    ∧ runProtected sampleDecode "secret" 100 (some "Bearer bad") nullHandler
        sampleDB =
        ({ status := 403, success := false,
           body := .failure "Invalid or expired token" }, sampleDB)
    ∧ (∃ s t, extractToken (some "Bearer tok") = some s
              ∧ sampleDecode s = some t
              ∧ t.sig = mkSig t.claims t.iat t.expiry "secret"
              ∧ 100 < t.expiry ∧ sampleClaims = t.claims) :=
  ⟨c2_expiry_and_signature.1 sampleClaims "secret" 100 (100 + sevenDaysSec + 86400)
      (by decide),
   c2_expiry_and_signature.2.1 tamperedToken "secret" 100 (by decide),
   c2_expiry_and_signature.2.2.1 sampleDecode "secret" 100 "tok" sampleClaims
      (by decide),
   c2_expiry_and_signature.2.2.2.1 sampleDecode "secret" 100 (some "Bearer bad")
      nullHandler sampleDB "bad" tamperedToken (by decide) (by decide) (by decide)
      (by decide),
   c2_expiry_and_signature.2.2.2.2 sampleDecode "secret" 100 (some "Bearer tok")
      sampleClaims (by decide)⟩

/-- C3: a registration request whose four fields are all present and truthy
and whose email is not yet in the users table succeeds (status 200), and the
returned token verifies under the same secret to claims holding exactly the
new user's id and the submitted email. -/
theorem c3_register_new_email (db : DB) (body : RegisterBody) (secret : String)
    (now : Nat)
    (hval : isTruthy body.email ∧ isTruthy body.firstName ∧
            isTruthy body.lastName ∧ isTruthy body.password)
    (hfresh : ∀ u ∈ db.users, u.email ≠ body.email.getD "") :
    (register db body secret now none).1.status = 200
    ∧ (register db body secret now none).1.success = true
    ∧ ∃ user token,
        (register db body secret now none).1.body =
          .registerOk "Registration successful" user token
        ∧ user.id = db.nextUserId
        ∧ user.email = body.email.getD ""
        ∧ jwtVerify token secret now =
            some { id := db.nextUserId, email := body.email.getD "" } := by
  have hany : db.users.any (fun u => u.email == body.email.getD "") = false := by
    rw [List.any_eq_false]
    intro u hu
    simpa using hfresh u hu
  rw [register_fresh_eq db body secret now hval hany]
  exact ⟨rfl, rfl, _, _, rfl, rfl, rfl,
    jwtVerify_jwtSign _ secret now now (by unfold sevenDaysSec; omega)⟩

/-- C3 witness: registering the spec's worked example against the empty
database succeeds with a token verifying to id 1 and email `a@b.com`. -/
theorem c3_register_new_email_witness :
    (register emptyDB sampleRegisterBody "secret" 10 none).1.status = 200
    ∧ (register emptyDB sampleRegisterBody "secret" 10 none).1.success = true
    ∧ ∃ user token,
        (register emptyDB sampleRegisterBody "secret" 10 none).1.body =
          .registerOk "Registration successful" user token
        ∧ user.id = emptyDB.nextUserId
        ∧ user.email = sampleRegisterBody.email.getD ""
        ∧ jwtVerify token "secret" 10 =
            some { id := emptyDB.nextUserId,
                   email := sampleRegisterBody.email.getD "" } :=
  c3_register_new_email emptyDB sampleRegisterBody "secret" 10 (by decide)
    (by intro u hu; simp [emptyDB] at hu)

/-- C4 counterexample: with correct credentials for the stored sample user
but a failing last-login UPDATE, the login response is a 500 `Login failed`,
not a success: the update's outcome does affect the login response. -/
theorem c4_counterexample_update_failure_blocks_login :
    findUserByEmail sampleDB "a@b.com" = some sampleUser
    ∧ bcryptCompare "pw123456" sampleUser.password = true
    ∧ (login sampleDB "a@b.com" "pw123456" "secret" 20
        { selectFault := none, updateFault := some { detail := none } }).1 =
      { status := 500, success := false, body := .failure "Login failed" } := by
  decide

/-- C4 amended: for every login request with a known email and matching
password, a failure of the last-login UPDATE is caught by the handler's
catch-all and turns the whole response into a 500 `Login failed` with the
state unchanged — the update is awaited inside the try block, so it is not
best-effort and its failure blocks the login response's success. -/
theorem c4_update_failure_fails_login (db : DB) (email password secret : String)
    (now : Nat) (u : UserRow) (e : DBError)
    (hfind : findUserByEmail db email = some u)
    (hpw : bcryptCompare password u.password = true) :
    login db email password secret now
      { selectFault := none, updateFault := some e } =
      ({ status := 500, success := false, body := .failure "Login failed" }, db) := by
  simp [login, hfind, hpw]

/-- C4 amended witness: the concrete failing UPDATE yields the concrete 500. -/
theorem c4_update_failure_fails_login_witness :
    login sampleDB "a@b.com" "pw123456" "secret" 20
      { selectFault := none, updateFault := some { detail := none } } =
      ({ status := 500, success := false, body := .failure "Login failed" },
       sampleDB) :=
  c4_update_failure_fails_login sampleDB "a@b.com" "pw123456" "secret" 20
    sampleUser { detail := none } (by decide) (by decide)

/-- C5 counterexample: a database error on register that is neither a
missing-field validation failure nor a duplicate-email violation is answered
with HTTP 400 — not 500 — and the store's internal `detail` text appears
verbatim in the response body. -/
theorem c5_counterexample_register_error_leaks_detail :
    (register emptyDB sampleRegisterBody "secret" 10
        (some { detail := some "pg internal: relation users is corrupted" })).1 =
      { status := 400, success := false,
        body := .failure "pg internal: relation users is corrupted" } := by
  decide

/-- C5 amended: database errors on the login, profile and readings routes are
translated to 500 responses with fixed generic messages carrying no store
detail; but on POST /api/register any thrown database error is translated to
a 400 whose message is the error's `detail` whenever that is a non-empty
string (else `Registration failed`), so internal store detail can reach the
register response body. -/
theorem c5_store_error_translation :
    (∀ (db : DB) (body : RegisterBody) (secret : String) (now : Nat) (e : DBError),
       (isTruthy body.email ∧ isTruthy body.firstName ∧
        isTruthy body.lastName ∧ isTruthy body.password) →
       register db body secret now (some e) =
         ({ status := 400, success := false,
            body := .failure (orFallback e.detail "Registration failed") }, db))
    ∧ (∀ (db : DB) (email password secret : String) (now : Nat)
         (e : DBError) (uf : Option DBError),
         login db email password secret now
           { selectFault := some e, updateFault := uf } =
           ({ status := 500, success := false, body := .failure "Login failed" }, db))
    ∧ (∀ (e : DBError) (claims : Claims) (db : DB),
         profileHandler (some e) claims db =
           ({ status := 500, success := false,
              body := .failure "Failed to fetch profile" }, db))
    ∧ (∀ (body : ReadingBody) (e : DBError) (now : Nat) (claims : Claims) (db : DB),
         postReadingHandler body (some e) now claims db =
           ({ status := 500, success := false,
              body := .failure "Failed to save reading" }, db))
    ∧ (∀ (e : DBError) (claims : Claims) (db : DB),
         listReadingsHandler (some e) claims db =
           ({ status := 500, success := false,
              body := .failure "Failed to fetch readings" }, db)) := by
  refine ⟨?_, ?_, ?_, ?_, ?_⟩
  · intro db body secret now e hval
    unfold register
    rw [if_neg (not_not_intro hval)]
    rfl
  · intro db email password secret now e uf; rfl
  · intro e claims db; rfl
  · intro body e now claims db; rfl
  · intro e claims db; rfl

/-- C5 amended witness: concrete faulted requests produce exactly the
translated responses. -/
theorem c5_store_error_translation_witness :
    register emptyDB sampleRegisterBody "secret" 10
        (some { detail := some "boom" }) =
      ({ status := 400, success := false,
         body := .failure (orFallback (some "boom") "Registration failed") },
       emptyDB)
    ∧ login sampleDB "a@b.com" "pw123456" "secret" 20
        { selectFault := some { detail := some "boom" }, updateFault := none } =
      ({ status := 500, success := false, body := .failure "Login failed" },
       sampleDB) :=
  ⟨c5_store_error_translation.1 emptyDB sampleRegisterBody "secret" 10
      { detail := some "boom" } (by decide),
   c5_store_error_translation.2.1 sampleDB "a@b.com" "pw123456" "secret" 20
      { detail := some "boom" } none⟩

/-- C6: no endpoint's response contains the stored password hash: the user
objects in responses are built by projections that do not read the password
column (both projections are invariant under changing the stored password),
the register response's user object is the password-free projection of the
row actually stored, the login response's user object is the fetched row
with its password removed, and the profile response's user object is the
password-free projection of the authenticated user's row. -/
theorem c6_password_never_in_response :
    (∀ (u : UserRow) (p : String),
       stripPassword { u with password := p } = stripPassword u)
    ∧ (∀ (u : UserRow) (p : String),
       returningProjection { u with password := p } = returningProjection u)
    ∧ (∀ (db : DB) (body : RegisterBody) (secret : String) (now : Nat)
         (fault : Option DBError) (resp : Response) (db1 : DB)
         (msg : String) (user : RegisteredUser) (token : Token),
         register db body secret now fault = (resp, db1) →
         resp.body = .registerOk msg user token →
         ∃ row ∈ db1.users, user = returningProjection row)
    ∧ (∀ (db : DB) (email password secret : String) (now : Nat)
         (faults : LoginFaults) (resp : Response) (db1 : DB)
         (msg : String) (user : PublicUser) (token : Token),
         login db email password secret now faults = (resp, db1) →
         resp.body = .loginOk msg user token →
         ∃ row, findUserByEmail db email = some row ∧ user = stripPassword row)
    ∧ (∀ (fault : Option DBError) (claims : Claims) (db : DB)
         (resp : Response) (db1 : DB) (user : PublicUser),
         profileHandler fault claims db = (resp, db1) →
         resp.body = .profileOk (some user) →
         ∃ row, db.users.find? (fun u => u.id == claims.id) = some row
                ∧ user = stripPassword row) := by
  refine ⟨fun u p => rfl, fun u p => rfl, ?_, ?_, ?_⟩
  · intro db body secret now fault resp db1 msg user token hreg hbody
    by_cases hval : isTruthy body.email ∧ isTruthy body.firstName ∧
        isTruthy body.lastName ∧ isTruthy body.password
    · cases fault with
      | some e =>
        rw [register_fault_eq db body secret now e hval] at hreg
        injection hreg with hr1 hr2
        subst hr1
        simp at hbody
      | none =>
        by_cases hdup : db.users.any (fun u => u.email == body.email.getD "") = true
        · rw [register_dup_eq db body secret now hval hdup] at hreg
          injection hreg with hr1 hr2
          subst hr1
          simp at hbody
        · rw [register_fresh_eq db body secret now hval
            (by simpa using hdup)] at hreg
          injection hreg with hr1 hr2
          subst hr1
          subst hr2
          simp only [Body.registerOk.injEq] at hbody
          obtain ⟨-, huser, -⟩ := hbody
          refine ⟨{ id := db.nextUserId, email := body.email.getD "",
                    first_name := body.firstName.getD "",
                    last_name := body.lastName.getD "",
                    password := bcryptHash (body.password.getD ""),
                    created_at := now, last_login := none,
                    settings := "\x7b\x7d" }, by simp, ?_⟩
          rw [← huser]
          rfl
    · rw [register_invalid_eq db body secret now fault hval] at hreg
      injection hreg with hr1 hr2
      subst hr1
      simp at hbody
  · intro db email password secret now faults resp db1 msg user token hlog hbody
    obtain ⟨sf, uf⟩ := faults
    cases sf with
    | some e =>
      simp only [login] at hlog
      injection hlog with hr1 hr2
      subst hr1
      simp at hbody
    | none =>
      cases hfind : findUserByEmail db email with
      | none =>
        rw [login_unknown_email db email password secret now _ rfl hfind] at hlog
        injection hlog with hr1 hr2
        subst hr1
        simp at hbody
      | some u =>
        by_cases hpw : bcryptCompare password u.password = true
        · cases uf with
          | some e =>
            simp only [login, hfind, hpw] at hlog
            rw [if_neg (by simp [hpw])] at hlog
            injection hlog with hr1 hr2
            subst hr1
            simp at hbody
          | none =>
            rw [login_success_eq db email password secret now u hfind hpw] at hlog
            injection hlog with hr1 hr2
            subst hr1
            simp only [Body.loginOk.injEq] at hbody
            obtain ⟨-, huser, -⟩ := hbody
            exact ⟨u, rfl, huser.symm⟩
        · rw [login_wrong_password db email password secret now _ u rfl hfind
            (by simpa using hpw)] at hlog
          injection hlog with hr1 hr2
          subst hr1
          simp at hbody
  · intro fault claims db resp db1 user hprof hbody
    cases fault with
    | some e =>
      simp only [profileHandler] at hprof
      injection hprof with hr1 hr2
      subst hr1
      simp at hbody
    | none =>
      simp only [profileHandler] at hprof
      injection hprof with hr1 hr2
      subst hr1
      simp only [Body.profileOk.injEq, Option.map_eq_some'] at hbody
      obtain ⟨row, hrow, hstr⟩ := hbody
      exact ⟨row, hrow, hstr.symm⟩

/-- C6 witness: concrete register, login and profile responses expose only
password-free projections of the stored rows. -/
theorem c6_password_never_in_response_witness :
    stripPassword { sampleUser with password := "other" } = stripPassword sampleUser
    ∧ returningProjection { sampleUser with password := "other" } =
        returningProjection sampleUser
    ∧ (∃ row ∈ (register emptyDB sampleRegisterBody "secret" 10 none).2.users,
         ({ id := 1, email := "a@b.com", first_name := "A", last_name := "B",
            created_at := 10 } : RegisteredUser) = returningProjection row)
    ∧ (∃ row, findUserByEmail sampleDB "a@b.com" = some row
              ∧ stripPassword sampleUser = stripPassword row)
    ∧ (∃ row, sampleDB.users.find? (fun u => u.id == (1 : Nat)) = some row
              ∧ stripPassword sampleUser = stripPassword row) :=
  ⟨c6_password_never_in_response.1 sampleUser "other",
   c6_password_never_in_response.2.1 sampleUser "other",
   c6_password_never_in_response.2.2.1 emptyDB sampleRegisterBody "secret" 10
      none _ _ "Registration successful"
      { id := 1, email := "a@b.com", first_name := "A", last_name := "B",
        created_at := 10 }
      (jwtSign { id := 1, email := "a@b.com" } "secret" 10) rfl (by decide),
   c6_password_never_in_response.2.2.2.1 sampleDB "a@b.com" "pw123456" "secret"
      20 { selectFault := none, updateFault := none } _ _ "Login successful"
      (stripPassword sampleUser)
      (jwtSign { id := 1, email := "a@b.com" } "secret" 20) rfl (by decide),
   c6_password_never_in_response.2.2.2.2 none { id := 1, email := "a@b.com" }
      sampleDB _ _ (stripPassword sampleUser) rfl (by decide)⟩

/-- C7: a login with an email not present in the users table and a login
with a known email but non-matching password both produce exactly the same
401 response with message `Invalid credentials`, so the two failure causes
are indistinguishable to the client. -/
theorem c7_login_failures_indistinguishable
    (db1 db2 : DB) (email1 pw1 email2 pw2 secret1 secret2 : String)
    (now1 now2 : Nat) (f1 f2 : LoginFaults) (u : UserRow)
    (h1 : findUserByEmail db1 email1 = none) (hf1 : f1.selectFault = none)
    (h2 : findUserByEmail db2 email2 = some u)
    (hpw : bcryptCompare pw2 u.password = false)
    (hf2 : f2.selectFault = none) :
    (login db1 email1 pw1 secret1 now1 f1).1 =
      { status := 401, success := false, body := .failure "Invalid credentials" }
    ∧ (login db2 email2 pw2 secret2 now2 f2).1 =
      { status := 401, success := false, body := .failure "Invalid credentials" }
    ∧ (login db1 email1 pw1 secret1 now1 f1).1 =
        (login db2 email2 pw2 secret2 now2 f2).1 := by
  rw [login_unknown_email db1 email1 pw1 secret1 now1 f1 hf1 h1,
      login_wrong_password db2 email2 pw2 secret2 now2 f2 u hf2 h2 hpw]
  exact ⟨rfl, rfl, rfl⟩

/-- C7 witness: concretely, an unknown email against the one-user database
and a wrong password for the stored user yield identical 401 responses. -/
theorem c7_login_failures_indistinguishable_witness :
    (login sampleDB "x@y.com" "pw123456" "secret" 20
        { selectFault := none, updateFault := none }).1 =
      { status := 401, success := false, body := .failure "Invalid credentials" }
    ∧ (login sampleDB "a@b.com" "wrongpass" "secret" 20
        { selectFault := none, updateFault := none }).1 =
      { status := 401, success := false, body := .failure "Invalid credentials" }
    ∧ (login sampleDB "x@y.com" "pw123456" "secret" 20
        { selectFault := none, updateFault := none }).1 =
        (login sampleDB "a@b.com" "wrongpass" "secret" 20
          { selectFault := none, updateFault := none }).1 :=
  c7_login_failures_indistinguishable sampleDB sampleDB "x@y.com" "pw123456"
    "a@b.com" "wrongpass" "secret" "secret" 20 20
    { selectFault := none, updateFault := none }
    { selectFault := none, updateFault := none } sampleUser
    (by decide) rfl (by decide) (by decide) rfl

/-- C8: a successful registration of a fresh email leaves exactly one users
row with that email; afterwards, from any state in which a row with that
email exists, every registration attempt with the same email (and otherwise
valid fields) fails with a 400 carrying the duplicate-email constraint
detail and leaves the database unchanged; and no other operation changes
the count of rows with that email (login only rewrites last_login, the
reading and profile handlers never touch the users table). -/
theorem c8_duplicate_registration (db : DB) (body : RegisterBody)
    (secret : String) (now : Nat)
    (hval : isTruthy body.email ∧ isTruthy body.firstName ∧
            isTruthy body.lastName ∧ isTruthy body.password)
    (hfresh : ∀ u ∈ db.users, u.email ≠ body.email.getD "") :
    (register db body secret now none).1.success = true
    ∧ ((register db body secret now none).2.users.countP
        (fun u => u.email == body.email.getD "")) = 1
    ∧ (∀ (db2 : DB) (body2 : RegisterBody) (secret2 : String) (now2 : Nat),
        body2.email = body.email →
        isTruthy body2.firstName → isTruthy body2.lastName →
        isTruthy body2.password →
        db2.users.any (fun u => u.email == body.email.getD "") = true →
        register db2 body2 secret2 now2 none =
          ({ status := 400, success := false,
             body := .failure (duplicateDetail (body.email.getD "")) }, db2))
    ∧ (∀ (db2 : DB) (email2 pw2 secret2 : String) (now2 : Nat) (f : LoginFaults),
        ((login db2 email2 pw2 secret2 now2 f).2.users.countP
          (fun u => u.email == body.email.getD "")) =
        db2.users.countP (fun u => u.email == body.email.getD ""))
    ∧ (∀ (db2 : DB) (rbody : ReadingBody) (fault : Option DBError)
         (now2 : Nat) (claims : Claims),
        (postReadingHandler rbody fault now2 claims db2).2.users = db2.users)
    ∧ (∀ (db2 : DB) (fault : Option DBError) (claims : Claims),
        (listReadingsHandler fault claims db2).2.users = db2.users)
    ∧ (∀ (db2 : DB) (fault : Option DBError) (claims : Claims),
        (profileHandler fault claims db2).2.users = db2.users) := by
  have hany : db.users.any (fun u => u.email == body.email.getD "") = false := by
    rw [List.any_eq_false]
    intro u hu
    simpa using hfresh u hu
  have hzero : db.users.countP (fun u => u.email == body.email.getD "") = 0 := by
    rw [List.countP_eq_zero]
    intro u hu
    simpa using hfresh u hu
  refine ⟨?_, ?_, ?_, ?_, ?_, ?_, ?_⟩
  · rw [register_fresh_eq db body secret now hval hany]
  · rw [register_fresh_eq db body secret now hval hany]
    simp [hzero]
  · intro db2 body2 secret2 now2 hem h2 h3 h4 hdup
    have hval2 : isTruthy body2.email ∧ isTruthy body2.firstName ∧
        isTruthy body2.lastName ∧ isTruthy body2.password :=
      ⟨by rw [hem]; exact hval.1, h2, h3, h4⟩
    have := register_dup_eq db2 body2 secret2 now2 hval2 (by rw [hem]; exact hdup)
    rw [this, hem]
  · intro db2 email2 pw2 secret2 now2 f
    obtain ⟨sf, uf⟩ := f
    cases sf with
    | some e => rfl
    | none =>
      cases hfind : findUserByEmail db2 email2 with
      | none =>
        rw [login_unknown_email db2 email2 pw2 secret2 now2 _ rfl hfind]
      | some u =>
        by_cases hpw : bcryptCompare pw2 u.password = true
        · cases uf with
          | some e =>
            rw [login_update_fault_eq db2 email2 pw2 secret2 now2 u e hfind hpw]
          | none =>
            rw [login_success_eq db2 email2 pw2 secret2 now2 u hfind hpw]
            exact countP_email_map_update db2.users u.id now2 (body.email.getD "")
        · rw [login_wrong_password db2 email2 pw2 secret2 now2 _ u rfl hfind
            (by simpa using hpw)]
  · intro db2 rbody fault now2 claims
    cases fault with
    | some e => rfl
    | none =>
      simp only [postReadingHandler]
      split <;> rfl
  · intro db2 fault claims
    cases fault <;> rfl
  · intro db2 fault claims
    cases fault <;> rfl

/-- C8 witness: registering the sample body twice against the empty
database concretely yields one row, then a 400 duplicate failure that
leaves the state unchanged. -/
theorem c8_duplicate_registration_witness :
    (register emptyDB sampleRegisterBody "secret" 10 none).1.success = true
    ∧ ((register emptyDB sampleRegisterBody "secret" 10 none).2.users.countP
        (fun u => u.email == "a@b.com")) = 1
    ∧ register (register emptyDB sampleRegisterBody "secret" 10 none).2
        sampleRegisterBody "secret" 20 none =
        ({ status := 400, success := false,
           body := .failure (duplicateDetail "a@b.com") },
         (register emptyDB sampleRegisterBody "secret" 10 none).2) :=
  have h := c8_duplicate_registration emptyDB sampleRegisterBody "secret" 10
    (by decide) (by intro u hu; simp [emptyDB] at hu)
  ⟨h.1, h.2.1,
   h.2.2.1 (register emptyDB sampleRegisterBody "secret" 10 none).2
     sampleRegisterBody "secret" 20 rfl (by decide) (by decide) (by decide)
     (by decide)⟩

/-- C9: after an authenticated reading submission at a time strictly later
than every stored reading's timestamp, listing readings returns the new
reading first; the list is sorted most recent first, contains only rows of
the authenticated user, and has at most 100 entries. -/
theorem c9_submit_then_list (claims : Claims) (body : ReadingBody) (db : DB)
    (now : Nat)
    (huser : db.users.any (fun u => u.id == claims.id) = true)
    (hts : ∀ r ∈ db.readings, r.timestamp < now) :
    ∃ rows : List ReadingRow,
      (listReadingsHandler none claims
          (postReadingHandler body none now claims db).2).1.body =
        .readingsOk rows
      ∧ rows.head? = some
          { id := db.nextReadingId, user_id := claims.id,
            power_w := body.power, energy_wh := body.energy, cost := body.cost,
            timestamp := now }
      ∧ List.Pairwise (fun a b => b.timestamp ≤ a.timestamp) rows
      ∧ (∀ r ∈ rows, r.user_id = claims.id)
      ∧ rows.length ≤ 100 := by
  rw [postReading_ok_eq body now claims db huser]
  set newRow : ReadingRow :=
    { id := db.nextReadingId, user_id := claims.id, power_w := body.power,
      energy_wh := body.energy, cost := body.cost, timestamp := now } with hnew
  set L : List ReadingRow :=
    (db.readings ++ [newRow]).filter (fun r => r.user_id == claims.id) with hL
  have hmem : newRow ∈ L := by
    rw [hL]
    simp [List.mem_filter]
  have hmax : ∀ y ∈ L, y ≠ newRow → y.timestamp < newRow.timestamp := by
    intro y hy hne
    rw [hL, List.mem_filter] at hy
    rcases List.mem_append.1 hy.1 with h1 | h1
    · exact hts y h1
    · exact absurd (List.mem_singleton.1 h1) hne
  have hhead := mergeSort_head_max L newRow hmem hmax
  have htrans : ∀ (a b c : ReadingRow),
      byTimestampDesc a b → byTimestampDesc b c → byTimestampDesc a c := by
    intro a b c hab hbc
    simp only [byTimestampDesc, decide_eq_true_eq] at *
    omega
  have htotal : ∀ (a b : ReadingRow),
      (byTimestampDesc a b || byTimestampDesc b a) = true := by
    intro a b
    simp only [byTimestampDesc, Bool.or_eq_true, decide_eq_true_eq]
    omega
  refine ⟨(L.mergeSort byTimestampDesc).take 100, rfl, ?_, ?_, ?_, ?_⟩
  · rw [take100_head]
    exact hhead
  · have hs := List.sorted_mergeSort htrans htotal L
    have := hs.sublist (List.take_sublist 100 (L.mergeSort byTimestampDesc))
    exact this.imp (by simp only [byTimestampDesc, decide_eq_true_eq]; exact id)
  · intro r hr
    have hrL : r ∈ L :=
      (List.Perm.mem_iff (List.mergeSort_perm L byTimestampDesc)).1
        ((List.take_sublist 100 _).mem hr)
    rw [hL, List.mem_filter] at hrL
    exact by simpa using hrL.2
  · calc ((L.mergeSort byTimestampDesc).take 100).length
        = min 100 (L.mergeSort byTimestampDesc).length := List.length_take 100 _
      _ ≤ 100 := min_le_left _ _

/-- C9 witness: with the two stored sample readings (timestamps 40 and 50),
submitting a reading at time 60 and then listing returns it first, sorted
descending, all owned by user 1, within the 100 cap. -/
theorem c9_submit_then_list_witness :
    ∃ rows : List ReadingRow,
      (listReadingsHandler none sampleClaims
          (postReadingHandler { power := some 7, energy := some 3, cost := none }
            none 60 sampleClaims sampleDBWithReadings).2).1.body =
        .readingsOk rows
      ∧ rows.head? = some
          { id := 3, user_id := 1, power_w := some 7,
            energy_wh := some 3, cost := none, timestamp := 60 }
      ∧ List.Pairwise (fun a b => b.timestamp ≤ a.timestamp) rows
      ∧ (∀ r ∈ rows, r.user_id = 1)
      ∧ rows.length ≤ 100 :=
  c9_submit_then_list sampleClaims
    { power := some 7, energy := some 3, cost := none } sampleDBWithReadings 60
    (by decide) (by decide)

/-- C10: the readings-submission handler performs no presence validation:
for every body, including one with all three fields absent, a row holding
the authenticated user's id and NULLs for the missing columns is appended
and the response is the 200 `Reading saved` success; and the full
POST /api/readings route never responds with status 400 (its only statuses
are 401, 403, 500 and 200). -/
theorem c10_readings_no_validation (claims : Claims) (body : ReadingBody)
    (db : DB) (now : Nat)
    (huser : db.users.any (fun u => u.id == claims.id) = true) :
    postReadingHandler body none now claims db =
      ({ status := 200, success := true, body := .readingOk "Reading saved" },
       { db with
           readings := db.readings ++
             [{ id := db.nextReadingId, user_id := claims.id,
                power_w := body.power, energy_wh := body.energy,
                cost := body.cost, timestamp := now }],
           nextReadingId := db.nextReadingId + 1 })
    ∧ (∀ (decode : String → Option Token) (secret : String)
         (authHeader : Option String) (fault : Option DBError) (db2 : DB),
        (postReadingRoute decode secret now authHeader body fault db2).1.status ≠ 400) := by
  constructor
  · exact postReading_ok_eq body now claims db huser
  · intro decode secret authHeader fault db2
    unfold postReadingRoute runProtected
    cases hauth : authenticateToken decode secret now authHeader with
    | reject r =>
      rcases authenticateToken_reject_status decode secret now authHeader r hauth
        with h | h <;> simp [h]
    | accept c =>
      cases fault with
      | some e => simp [postReadingHandler]
      | none =>
        simp only [postReadingHandler]
        split <;> simp

/-- C10 witness: submitting an all-absent body as the sample user inserts a
NULL row and succeeds, and a concrete faulted route call has status 500,
not 400. -/
theorem c10_readings_no_validation_witness :
    postReadingHandler { power := none, energy := none, cost := none }
        none 60 sampleClaims sampleDB =
      ({ status := 200, success := true, body := .readingOk "Reading saved" },
       { sampleDB with
           readings := sampleDB.readings ++
             [{ id := 1, user_id := 1, power_w := none, energy_wh := none,
                cost := none, timestamp := 60 }],
           nextReadingId := 2 })
    ∧ (postReadingRoute sampleDecode "secret" 60 (some "Bearer tok")
        { power := none, energy := none, cost := none }
        (some { detail := none }) sampleDB).1.status ≠ 400 :=
  have h := c10_readings_no_validation sampleClaims
    { power := none, energy := none, cost := none } sampleDB 60 (by decide)
  ⟨h.1, h.2 sampleDecode "secret" (some "Bearer tok")
    (some { detail := none }) sampleDB⟩

end EnergyMonitor
